import Mathlib

/-!
Shallow embedding of `src/lib/msal-common/src/client/DeviceCodeClient.ts`
(OAuth 2.0 device-code client: device-code fetch, user callback, token-endpoint
polling loop) and of the spec-modelled request-builder collaborators.

Conventions of the embedding:
* Times are natural numbers of seconds (`TimeUtils.nowSeconds()`), except the
  `setInterval` schedule, which is in milliseconds as in the source.
* JSON fields a server may omit are `Option`; a falsy response body is `none`.
* The transport collaborators (`sendGetRequestAsync`, `executePostToTokenEndpoint`)
  are parameters: `Except String r` is a settled transport call, `.error` being a
  rejected promise.
* The `setInterval` loop is run with explicit fuel (the number of observed ticks);
  `outcome = none` means the promise has not settled within the observed ticks.
-/

namespace MsalDeviceCode

/-- Constants.AUTHORIZATION_PENDING from `utils/Constants.ts`, compared against
`response.body.error` at line 152. -/
def AUTHORIZATION_PENDING : String := "authorization_pending"

/-- Token-endpoint response body (`ServerAuthorizationTokenResponse`): either an
error marker (`error`, `error_description`) or a token payload; every field may be
absent in the JSON. -/
structure ServerAuthorizationTokenResponse where
  error : Option String
  error_description : Option String
  access_token : Option String
  deriving Repr, DecidableEq

/-- A settled response from `executePostToTokenEndpoint`: `body` is `none` when the
response arrived with a falsy body (the `response.body &&` guard at line 152). -/
structure NetworkResponse where
  body : Option ServerAuthorizationTokenResponse
  deriving Repr, DecidableEq

/-- The two `ClientAuthError`s the polling loop creates itself (lines 139 and 144). -/
inductive ClientAuthErrorKind where
  | deviceCodeCancelled
  | deviceCodeExpired
  deriving Repr, DecidableEq

/-- A rejection of the polling promise: a `ClientAuthError` made by the loop, or the
error caught from a failed `executePostToTokenEndpoint` call (lines 160-163). -/
inductive PollRejection where
  | clientAuth (e : ClientAuthErrorKind)
  | network (e : String)
  deriving Repr, DecidableEq

/-- Logger levels used by the loop: `logger.error` (lines 137, 142) and
`logger.info` (line 154). -/
inductive LogLevel where
  | error
  | info
  deriving Repr, DecidableEq

/-- One logger call; the `info` call at line 154 passes
`response.body.error_description`, which the server may omit. -/
structure LogEntry where
  level : LogLevel
  msg : Option String
  deriving Repr, DecidableEq

/-- What one `setInterval` callback run decides: reject the promise, resolve it with
`response.body` (line 157), or keep polling (the `authorization_pending` branch). -/
inductive TickOutcome where
  | terminateReject (r : PollRejection)
  | terminateResolve (body : Option ServerAuthorizationTokenResponse)
  | continuePolling
  deriving Repr, DecidableEq

/-- Result of one tick: its outcome, the logger calls it made, and whether it issued
a POST to the token endpoint. -/
structure TickResult where
  outcome : TickOutcome
  logs : List LogEntry
  didPost : Bool
  deriving Repr, DecidableEq

/-- Line 126: `deviceCodeExpirationTime = TimeUtils.nowSeconds() + deviceCodeResponse.expiresIn`. -/
def deviceCodeExpirationTime (issuanceTime expiresIn : Nat) : Nat :=
  issuanceTime + expiresIn

/-- Line 127: `pollingIntervalMilli = deviceCodeResponse.interval * 1000`. -/
def pollingIntervalMilli (interval : Nat) : Nat :=
  interval * 1000

/-- The message logged at line 137. -/
def cancelMessage : String :=
  "Token request cancelled by setting DeviceCodeRequest.cancel = true"

/-- The message logged at line 142 (template string including the expiration time). -/
def expiredMessage (exp : Nat) : String :=
  "Device code expired. Expiration time of device code was " ++ toString exp

/-- One evaluation of the `setInterval` callback body, lines 134-163: the
cancellation check first, then the expiry check, then the POST; a body carrying
`authorization_pending` is only logged at info level, any other settled response
resolves the promise with `response.body`. -/
def pollTick (cancel : Bool) (now exp : Nat)
    (net : Except String NetworkResponse) : TickResult :=
  if cancel then
    ⟨.terminateReject (.clientAuth .deviceCodeCancelled), [⟨.error, some cancelMessage⟩], false⟩
  else if now > exp then
    ⟨.terminateReject (.clientAuth .deviceCodeExpired), [⟨.error, some (expiredMessage exp)⟩], false⟩
  else
    match net with
    | .error e => ⟨.terminateReject (.network e), [], true⟩
    | .ok response =>
      if response.body.any (fun b => b.error == some AUTHORIZATION_PENDING) then
        ⟨.continuePolling, [⟨.info, response.body.bind (fun b => b.error_description)⟩], true⟩
      else
        ⟨.terminateResolve response.body, [], true⟩

/-- How the polling promise settled: `resolve(response.body)` at line 157, or one of
the rejections. -/
inductive PollOutcome where
  | resolved (body : Option ServerAuthorizationTokenResponse)
  | rejected (r : PollRejection)
  deriving Repr, DecidableEq

/-- A run of the polling loop: how the promise settled (`none` = still polling when
the observed ticks ran out), the 1-indexed ticks at which a token-endpoint POST was
issued, and the logger calls in order. -/
structure PollRun where
  outcome : Option PollOutcome
  postTicks : List Nat
  logs : List LogEntry
  deriving Repr, DecidableEq

/-- The `setInterval` loop of `acquireTokenWithDeviceCode` (lines 131-165), run from
tick `i` with `fuel` remaining ticks. `clearInterval` on every terminal branch is
embedded as the recursion stopping: no later tick is evaluated and no later POST is
issued once a tick terminates. -/
def runFrom (exp : Nat) (cancelAt : Nat → Bool) (nowAt : Nat → Nat)
    (netAt : Nat → Except String NetworkResponse) : Nat → Nat → PollRun
  | 0, _ => ⟨none, [], []⟩
  | fuel + 1, i =>
    let t := pollTick (cancelAt i) (nowAt i) exp (netAt i)
    let posted : List Nat := if t.didPost then [i] else []
    match t.outcome with
    | .continuePolling =>
      let rest := runFrom exp cancelAt nowAt netAt fuel (i + 1)
      ⟨rest.outcome, posted ++ rest.postTicks, t.logs ++ rest.logs⟩
    | .terminateResolve b => ⟨some (.resolved b), posted, t.logs⟩
    | .terminateReject r => ⟨some (.rejected r), posted, t.logs⟩

/-- `acquireTokenWithDeviceCode` (lines 119-166): computes the expiration time from
`TimeUtils.nowSeconds()` at entry (`issuanceTime`) plus `expiresIn`, then polls from
tick 1. `cancelAt i`, `nowAt i`, `netAt i` are the cancellation flag, clock and
settled POST result observed at tick `i`. -/
def acquireTokenWithDeviceCode (issuanceTime expiresIn : Nat)
    (cancelAt : Nat → Bool) (nowAt : Nat → Nat)
    (netAt : Nat → Except String NetworkResponse) (fuel : Nat) : PollRun :=
  runFrom (deviceCodeExpirationTime issuanceTime expiresIn) cancelAt nowAt netAt fuel 1

/-- Elapsed milliseconds at which the i-th callback of `setInterval(cb, delayMilli)`
fires (i ≥ 1): JavaScript `setInterval` first runs the callback one full delay after
registration, then once per further delay. -/
def setIntervalElapsedMilli (delayMilli i : Nat) : Nat :=
  delayMilli * i

/-- Raw JSON body of the device-code endpoint (`ServerDeviceCodeResponse` in
`response/DeviceCodeResponse.ts`); any field may be missing from the wire. -/
structure ServerDeviceCodeResponse where
  user_code : Option String
  device_code : Option String
  verification_uri : Option String
  expires_in : Option Nat
  interval : Option Nat
  message : Option String
  deriving Repr, DecidableEq

/-- `DeviceCodeResponse`, the camelCase record handed to the caller's callback. A
field is `none` exactly when the corresponding wire field was missing. -/
structure DeviceCodeResponse where
  userCode : Option String
  deviceCode : Option String
  verificationUri : Option String
  expiresIn : Option Nat
  interval : Option Nat
  message : Option String
  deriving Repr, DecidableEq

/-- `executeGetRequestToDeviceCodeEndpoint` (lines 63-84): awaits the transport GET
(`net` is its settled result; a rejected transport call propagates unchanged) and
destructures the six body fields into a `DeviceCodeResponse` with no validation of
any kind. -/
def executeGetRequestToDeviceCodeEndpoint
    (net : Except String ServerDeviceCodeResponse) : Except String DeviceCodeResponse :=
  match net with
  | .error e => .error e
  | .ok body =>
    .ok ⟨body.user_code, body.device_code, body.verification_uri,
      body.expires_in, body.interval, body.message⟩

/-- `getDeviceCode` (lines 50-56): builds the device-code URL and headers, then
delegates to `executeGetRequestToDeviceCodeEndpoint`. -/
def getDeviceCode (net : Except String ServerDeviceCodeResponse) :
    Except String DeviceCodeResponse :=
  executeGetRequestToDeviceCodeEndpoint net

/-- The externally observable events of one `acquireToken` flow, in order. -/
inductive FlowEvent where
  | createAuthority
  | deviceCodeFetch
  | deviceCodeCallbackInvoked
  | tokenPost (i : Nat)
  deriving Repr, DecidableEq

/-- One serialized JSON field, skipped when the value is absent, as
`JSON.stringify` skips `undefined` properties. -/
def jsonField (name : String) (v : Option String) : List String :=
  match v with
  | none => []
  | some s => ["\"" ++ name ++ "\":\"" ++ s ++ "\""]

/-- `JSON.stringify` of a token response body. -/
def stringifyTokenResponse (b : ServerAuthorizationTokenResponse) : String :=
  "\x7b" ++ String.intercalate ","
    (jsonField "error" b.error ++ jsonField "error_description" b.error_description ++
      jsonField "access_token" b.access_token) ++ "\x7d"

/-- `JSON.stringify(response)` at line 43: stringifying an absent (`undefined`) body
yields no string at all. -/
def jsonStringifyBody : Option ServerAuthorizationTokenResponse → Option String
  | none => none
  | some b => some (stringifyTokenResponse b)

/-- How one `acquireToken` call settles: still pending, resolved with the
stringified poll result (line 43), rejected by the polling promise, or rejected by
the device-code fetch. -/
inductive AcquireResult where
  | pending
  | resolvedJson (s : Option String)
  | rejectedPoll (r : PollRejection)
  | rejectedFetch (e : String)
  deriving Repr, DecidableEq

/-- The collaborators one `acquireToken` call observes: the settled device-code GET,
the clock at poll-loop entry, and per-tick cancellation flag, clock and settled POST. -/
structure AcquireEnv where
  deviceNet : Except String ServerDeviceCodeResponse
  issuanceTime : Nat
  cancelAt : Nat → Bool
  nowAt : Nat → Nat
  netAt : Nat → Except String NetworkResponse
  fuel : Nat

/-- Mapping of the polling promise settlement to `acquireToken`'s own settlement
(lines 38-43, including the `JSON.stringify` of the resolved body). -/
def acquireResultOfRun (run : PollRun) : AcquireResult :=
  match run.outcome with
  | some (.resolved b) => .resolvedJson (jsonStringifyBody b)
  | some (.rejected r) => .rejectedPoll r
  | none => .pending

/-- `acquireToken` (lines 34-44): resolve the authority, fetch the device code,
invoke `request.deviceCodeCallback(deviceCodeResponse)`, poll, stringify. The second
component is the flow's event trace. A missing `expires_in` would make the line-126
addition NaN in JavaScript; it is modelled as 0, which no claim below depends on
(each either fixes `expires_in` or does not involve it). -/
def acquireToken (env : AcquireEnv) : AcquireResult × List FlowEvent :=
  match getDeviceCode env.deviceNet with
  | .error e => (.rejectedFetch e, [.createAuthority, .deviceCodeFetch])
  | .ok dcr =>
    let run := acquireTokenWithDeviceCode env.issuanceTime (dcr.expiresIn.getD 0)
      env.cancelAt env.nowAt env.netAt env.fuel
    (acquireResultOfRun run,
      [.createAuthority, .deviceCodeFetch, .deviceCodeCallbackInvoked] ++
        run.postTicks.map FlowEvent.tokenPost)

/-- Modelled from the spec: the required default scopes that `ScopeSet`
(`src/lib/msal-common/src/request/ScopeSet.ts`, not under src/) injects when they
are required (§4.1: offline-access equivalents, injected idempotently). -/
def DEFAULT_SCOPES : List String := ["openid", "profile", "offline_access"]

/-- Modelled from the spec: `ScopeSet` is not under src/. §4.1: scopes are merged
with set semantics (no duplicates) into an order-independent canonical form with
stable output for identical inputs, so the model dedups and sorts; `scopesRequired`
(the constructor argument at lines 104-106) controls injection of the default
scopes, which is idempotent because of the dedup. -/
def scopeSetAsList (scopes : List String) (scopesRequired : Bool) : List String :=
  let merged := if scopesRequired then scopes ++ DEFAULT_SCOPES else scopes
  merged.dedup.mergeSort

/-- Modelled from the spec: `RequestParameterBuilder.createQueryString`
(`src/lib/msal-common/src/server/RequestParameterBuilder.ts`, not under src/).
§4.1: a single space-delimited scope parameter and a stable parameter order; this
models `DeviceCodeClient.createQueryString` (lines 100-111), which adds the scopes
with `scopesRequired = false` and then the client id. -/
def createQueryString (scopes : List String) (clientId : String) : String :=
  "scope=" ++ String.intercalate " " (scopeSetAsList scopes false) ++
    "&client_id=" ++ clientId

/-- A pending-authorization poll body. -/
def pendingBody : ServerAuthorizationTokenResponse :=
  ⟨some AUTHORIZATION_PENDING, some "user has not yet authenticated", none⟩

/-- A non-pending error poll body. -/
def invalidGrantBody : ServerAuthorizationTokenResponse :=
  ⟨some "invalid_grant", some "the supplied device code is invalid", none⟩

/-- A successful token poll body. -/
def tokenBody : ServerAuthorizationTokenResponse :=
  ⟨none, none, some "access-token-123"⟩

/-- A well-formed device-code endpoint body. -/
def sampleDeviceCodeBody : ServerDeviceCodeResponse :=
  ⟨some "ABCD-EFGH", some "opaque-device-code", some "https://contoso.test/devicelogin",
    some 900, some 5, some "enter the code ABCD-EFGH at the verification page"⟩

/-- A device-code endpoint body missing the required `user_code` field. -/
def malformedDeviceCodeBody : ServerDeviceCodeResponse :=
  ⟨none, some "opaque-device-code", some "https://contoso.test/devicelogin",
    some 900, some 5, some "enter the code at the verification page"⟩

/-- A tick whose cancellation flag is set rejects with the cancellation error at
once: no POST on that tick, and none later because the recursion stops. -/
theorem runFrom_cancel {exp i fuel : Nat} {cancelAt : Nat → Bool} {nowAt : Nat → Nat}
    {netAt : Nat → Except String NetworkResponse} (hc : cancelAt i = true) :
    runFrom exp cancelAt nowAt netAt (fuel + 1) i =
      ⟨some (.rejected (.clientAuth .deviceCodeCancelled)), [],
        [⟨.error, some cancelMessage⟩]⟩ := by
  simp [runFrom, pollTick, hc]

/-- An uncancelled tick evaluated after the expiration time rejects with the expiry
error at once: no POST on that tick, and none later. -/
theorem runFrom_expired {exp i fuel : Nat} {cancelAt : Nat → Bool} {nowAt : Nat → Nat}
    {netAt : Nat → Except String NetworkResponse}
    (hc : cancelAt i = false) (hn : exp < nowAt i) :
    runFrom exp cancelAt nowAt netAt (fuel + 1) i =
      ⟨some (.rejected (.clientAuth .deviceCodeExpired)), [],
        [⟨.error, some (expiredMessage exp)⟩]⟩ := by
  simp [runFrom, pollTick, hc, hn]

/-- A tick whose POST call itself fails rejects with the caught error. -/
theorem runFrom_netError {exp i fuel : Nat} {cancelAt : Nat → Bool} {nowAt : Nat → Nat}
    {netAt : Nat → Except String NetworkResponse} {e : String}
    (hc : cancelAt i = false) (hn : ¬ exp < nowAt i) (hnet : netAt i = .error e) :
    runFrom exp cancelAt nowAt netAt (fuel + 1) i =
      ⟨some (.rejected (.network e)), [i], []⟩ := by
  simp [runFrom, pollTick, hc, hn, hnet]

/-- A tick that receives a body carrying `authorization_pending` posts, logs the
description at info level, and keeps polling: the run's settlement is whatever the
remaining ticks decide. -/
theorem runFrom_pending {exp i fuel : Nat} {cancelAt : Nat → Bool} {nowAt : Nat → Nat}
    {netAt : Nat → Except String NetworkResponse} {b : ServerAuthorizationTokenResponse}
    (hc : cancelAt i = false) (hn : ¬ exp < nowAt i)
    (hnet : netAt i = .ok ⟨some b⟩) (hb : b.error = some AUTHORIZATION_PENDING) :
    runFrom exp cancelAt nowAt netAt (fuel + 1) i =
      ⟨(runFrom exp cancelAt nowAt netAt fuel (i + 1)).outcome,
        i :: (runFrom exp cancelAt nowAt netAt fuel (i + 1)).postTicks,
        ⟨.info, b.error_description⟩ :: (runFrom exp cancelAt nowAt netAt fuel (i + 1)).logs⟩ := by
  simp [runFrom, pollTick, hc, hn, hnet, hb]

/-- A tick that receives any settled response not carrying `authorization_pending`
resolves the promise with `response.body` — error bodies and absent bodies
included. -/
theorem runFrom_resolve {exp i fuel : Nat} {cancelAt : Nat → Bool} {nowAt : Nat → Nat}
    {netAt : Nat → Except String NetworkResponse} {r : NetworkResponse}
    (hc : cancelAt i = false) (hn : ¬ exp < nowAt i) (hnet : netAt i = .ok r)
    (hr : r.body.any (fun b => b.error == some AUTHORIZATION_PENDING) = false) :
    runFrom exp cancelAt nowAt netAt (fuel + 1) i =
      ⟨some (.resolved r.body), [i], []⟩ := by
  simp [runFrom, pollTick, hc, hn, hnet, hr]

/-- If from tick `i + k` on the clock is already past the expiration time, at most
`k` POSTs are issued however the ticks go: a tick past expiry never posts and always
ends the run. -/
theorem runFrom_postTicks_length_le (exp : Nat) (cancelAt : Nat → Bool) (nowAt : Nat → Nat)
    (netAt : Nat → Except String NetworkResponse) :
    ∀ k i fuel, (∀ j, i + k ≤ j → exp < nowAt j) →
      (runFrom exp cancelAt nowAt netAt fuel i).postTicks.length ≤ k := by
  intro k
  induction k with
  | zero =>
    intro i fuel h
    match fuel with
    | 0 => simp [runFrom]
    | f + 1 =>
      cases hc : cancelAt i with
      | true => simp [runFrom, pollTick, hc]
      | false =>
        have hexp : exp < nowAt i := h i (by omega)
        simp [runFrom, pollTick, hc, hexp]
  | succ k ih =>
    intro i fuel h
    match fuel with
    | 0 => simp [runFrom]
    | f + 1 =>
      cases hc : cancelAt i with
      | true => simp [runFrom, pollTick, hc]
      | false =>
        by_cases hexp : exp < nowAt i
        · simp [runFrom, pollTick, hc, hexp]
        · cases hnet : netAt i with
          | error e =>
            simp [runFrom, pollTick, hc, hexp, hnet]
          | ok r =>
            by_cases hp : r.body.any (fun b => b.error == some AUTHORIZATION_PENDING) = true
            · have hrest := ih (i + 1) f (fun j hj => h j (by omega))
              simp [runFrom, pollTick, hc, hexp, hnet, hp]
              omega
            · simp [runFrom, pollTick, hc, hexp, hnet, hp]

/-- The poll-post events of a trace never contain the callback event. -/
theorem count_callback_map_tokenPost (l : List Nat) :
    (l.map FlowEvent.tokenPost).count FlowEvent.deviceCodeCallbackInvoked = 0 := by
  induction l with
  | nil => rfl
  | cons a t ih => simp [List.count_cons, ih]

/-- The spec-modelled scope canonicalization is invariant under permutation of the
input scopes. -/
theorem scopeSetAsList_perm {s1 s2 : List String} (b : Bool) (h : s1.Perm s2) :
    scopeSetAsList s1 b = scopeSetAsList s2 b := by
  unfold scopeSetAsList
  have hm : (if b then s1 ++ DEFAULT_SCOPES else s1).Perm
      (if b then s2 ++ DEFAULT_SCOPES else s2) := by
    cases b with
    | true => simpa using h.append_right DEFAULT_SCOPES
    | false => simpa using h
  exact List.eq_of_perm_of_sorted
    ((List.mergeSort_perm _ _).trans ((hm.dedup).trans (List.mergeSort_perm _ _).symm))
    (List.sorted_mergeSort' _) (List.sorted_mergeSort' _)

/-- The spec-modelled scope canonicalization has no duplicate scope. -/
theorem scopeSetAsList_nodup (s : List String) (b : Bool) :
    (scopeSetAsList s b).Nodup := by
  unfold scopeSetAsList
  exact ((List.mergeSort_perm _ _).nodup_iff).mpr (List.nodup_dedup _)

/-- Environment of a flow whose single poll tick receives an `invalid_grant` error
body while uncancelled and unexpired. -/
def envErrorBody : AcquireEnv :=
  ⟨.ok sampleDeviceCodeBody, 1000, fun _ => false, fun j => 1000 + 5 * j,
    fun _ => .ok ⟨some invalidGrantBody⟩, 1⟩

/-- C1: the claim (with §4.3 rule 4) says a tick whose body carries an error code
other than `authorization_pending` terminates as `Failed(ServerError)` and the error
payload reaches the `acquireToken` caller as a typed failure, never as a successful
result. The code does the opposite: the line-155 `else` branch resolves the promise
with the error-carrying body, and `acquireToken` returns its JSON serialization as a
success (line 43, marked `TODO handle response`). Evaluated here at the failing
input: an unexpired, uncancelled tick receiving `invalid_grant`. -/
theorem errorBody_resolved_as_success_C1 :
    (pollTick false 1005 1900 (.ok ⟨some invalidGrantBody⟩)).outcome =
      .terminateResolve (some invalidGrantBody) ∧
    (acquireToken envErrorBody).1 =
      .resolvedJson (some (stringifyTokenResponse invalidGrantBody)) := by
  constructor
  · rfl
  · rfl

/-- C2: a tick whose settled response body carries `authorization_pending` keeps
the machine in the Polling state: its outcome is `continuePolling`, the only
surfacing is one info-level log of the error description, and the run's settlement
is whatever the remaining ticks decide (polling continues until success, expiry,
cancellation, or a non-pending error). -/
theorem authorizationPending_keeps_polling_C2 (exp i fuel : Nat) (cancelAt : Nat → Bool)
    (nowAt : Nat → Nat) (netAt : Nat → Except String NetworkResponse)
    (b : ServerAuthorizationTokenResponse)
    (hc : cancelAt i = false) (hn : ¬ exp < nowAt i)
    (hnet : netAt i = .ok ⟨some b⟩) (hb : b.error = some AUTHORIZATION_PENDING) :
    (pollTick (cancelAt i) (nowAt i) exp (netAt i)).outcome = .continuePolling ∧
    (pollTick (cancelAt i) (nowAt i) exp (netAt i)).logs = [⟨.info, b.error_description⟩] ∧
    runFrom exp cancelAt nowAt netAt (fuel + 1) i =
      ⟨(runFrom exp cancelAt nowAt netAt fuel (i + 1)).outcome,
        i :: (runFrom exp cancelAt nowAt netAt fuel (i + 1)).postTicks,
        ⟨.info, b.error_description⟩ :: (runFrom exp cancelAt nowAt netAt fuel (i + 1)).logs⟩ := by
  refine ⟨?_, ?_, runFrom_pending hc hn hnet hb⟩
  · simp [pollTick, hc, hn, hnet, hb]
  · simp [pollTick, hc, hn, hnet, hb]

/-- Witness for C2 at a concrete pending tick. -/
theorem authorizationPending_keeps_polling_C2_witness :
    (pollTick false 50 100 (.ok ⟨some pendingBody⟩)).outcome = .continuePolling ∧
    (pollTick false 50 100 (.ok ⟨some pendingBody⟩)).logs =
      [⟨.info, some "user has not yet authenticated"⟩] ∧
    runFrom 100 (fun _ => false) (fun _ => 50) (fun _ => .ok ⟨some pendingBody⟩) 1 1 =
      ⟨none, [1], [⟨.info, some "user has not yet authenticated"⟩]⟩ := by
  have h := authorizationPending_keeps_polling_C2 100 1 0 (fun _ => false) (fun _ => 50)
    (fun _ => .ok ⟨some pendingBody⟩) pendingBody rfl (by decide) rfl rfl
  exact ⟨h.1, h.2.1, h.2.2⟩

/-- C3: a tick whose cancellation flag is set rejects with the cancellation error,
issues no token-endpoint POST on that tick and (the recursion stopping) on any later
one, and this holds with no constraint on the clock — in particular the cancellation
check wins even when the device code is already expired. -/
theorem cancellation_wins_C3 (exp i fuel : Nat) (cancelAt : Nat → Bool) (nowAt : Nat → Nat)
    (netAt : Nat → Except String NetworkResponse) (hc : cancelAt i = true) :
    runFrom exp cancelAt nowAt netAt (fuel + 1) i =
      ⟨some (.rejected (.clientAuth .deviceCodeCancelled)), [],
        [⟨.error, some cancelMessage⟩]⟩ :=
  runFrom_cancel hc

/-- Witness for C3 with an already-expired clock (expiration time 0, clock 100), so
the cancellation rejection is also seen to precede the expiry rejection. -/
theorem cancellation_wins_C3_witness :
    runFrom 0 (fun _ => true) (fun _ => 100) (fun _ => .ok ⟨some tokenBody⟩) 3 1 =
      ⟨some (.rejected (.clientAuth .deviceCodeCancelled)), [],
        [⟨.error, some cancelMessage⟩]⟩ :=
  cancellation_wins_C3 0 1 2 (fun _ => true) (fun _ => 100)
    (fun _ => .ok ⟨some tokenBody⟩) rfl

/-- C4: an uncancelled tick evaluated when the clock is past
`deviceCodeExpirationTime = issuanceTime + expiresIn` rejects with the expiry error
and issues no token-endpoint POST on that tick. -/
theorem expiry_terminates_before_post_C4 (issuanceTime expiresIn i fuel : Nat)
    (cancelAt : Nat → Bool) (nowAt : Nat → Nat)
    (netAt : Nat → Except String NetworkResponse)
    (hc : cancelAt i = false)
    (hn : deviceCodeExpirationTime issuanceTime expiresIn < nowAt i) :
    runFrom (deviceCodeExpirationTime issuanceTime expiresIn) cancelAt nowAt netAt
        (fuel + 1) i =
      ⟨some (.rejected (.clientAuth .deviceCodeExpired)), [],
        [⟨.error, some (expiredMessage (deviceCodeExpirationTime issuanceTime expiresIn))⟩]⟩ :=
  runFrom_expired hc hn

/-- Witness for C4: issuance 100, expiresIn 10, clock 111 at the tick. -/
theorem expiry_terminates_before_post_C4_witness :
    runFrom (deviceCodeExpirationTime 100 10) (fun _ => false) (fun _ => 111)
        (fun _ => .ok ⟨some tokenBody⟩) 1 1 =
      ⟨some (.rejected (.clientAuth .deviceCodeExpired)), [],
        [⟨.error, some (expiredMessage (deviceCodeExpirationTime 100 10))⟩]⟩ :=
  expiry_terminates_before_post_C4 100 10 1 0 (fun _ => false) (fun _ => 111)
    (fun _ => .ok ⟨some tokenBody⟩) rfl (by decide)

/-- C5: for every successful device-code fetch, the flow's event trace is exactly
authority resolution, the fetch, one callback invocation, then the poll POSTs: the
callback fires exactly once, strictly after the fetch completes and strictly before
every token-endpoint poll request. -/
theorem callback_once_before_polls_C5 (env : AcquireEnv) (sdc : ServerDeviceCodeResponse)
    (henv : env.deviceNet = .ok sdc) :
    ∃ posts : List Nat,
      (acquireToken env).2 =
        [FlowEvent.createAuthority, FlowEvent.deviceCodeFetch,
          FlowEvent.deviceCodeCallbackInvoked] ++ posts.map FlowEvent.tokenPost ∧
      FlowEvent.deviceCodeCallbackInvoked ∉ posts.map FlowEvent.tokenPost ∧
      ((acquireToken env).2).count FlowEvent.deviceCodeCallbackInvoked = 1 := by
  refine ⟨(acquireTokenWithDeviceCode env.issuanceTime (sdc.expires_in.getD 0)
    env.cancelAt env.nowAt env.netAt env.fuel).postTicks, ?_, ?_, ?_⟩
  · simp [acquireToken, getDeviceCode, executeGetRequestToDeviceCodeEndpoint, henv]
  · simp
  · simp [acquireToken, getDeviceCode, executeGetRequestToDeviceCodeEndpoint, henv,
      List.count_append, List.count_cons, count_callback_map_tokenPost]

/-- Environment of a flow that polls twice against pending responses. -/
def envPendingFlow : AcquireEnv :=
  ⟨.ok sampleDeviceCodeBody, 1000, fun _ => false, fun j => 1000 + 5 * j,
    fun _ => .ok ⟨some pendingBody⟩, 2⟩

/-- Witness for C5 on a concrete two-tick pending flow. -/
theorem callback_once_before_polls_C5_witness :
    ∃ posts : List Nat,
      (acquireToken envPendingFlow).2 =
        [FlowEvent.createAuthority, FlowEvent.deviceCodeFetch,
          FlowEvent.deviceCodeCallbackInvoked] ++ posts.map FlowEvent.tokenPost ∧
      FlowEvent.deviceCodeCallbackInvoked ∉ posts.map FlowEvent.tokenPost ∧
      ((acquireToken envPendingFlow).2).count FlowEvent.deviceCodeCallbackInvoked = 1 :=
  callback_once_before_polls_C5 envPendingFlow sampleDeviceCodeBody rfl

/-- C6: with interval 5 s and expiresIn 16 s, the loop issues at most 3 POSTs
however the per-tick environment behaves; and when every response keeps reporting
pending with no cancellation, any run of at least 4 ticks settles as Expired — a
fourth POST never occurs. -/
theorem at_most_three_polls_C6 (t0 fuel : Nat) (cancelAt : Nat → Bool)
    (netAt : Nat → Except String NetworkResponse) :
    (acquireTokenWithDeviceCode t0 16 cancelAt (fun j => t0 + 5 * j) netAt
      fuel).postTicks.length ≤ 3 ∧
    (4 ≤ fuel →
      (acquireTokenWithDeviceCode t0 16 (fun _ => false) (fun j => t0 + 5 * j)
          (fun _ => .ok ⟨some pendingBody⟩) fuel).outcome =
        some (.rejected (.clientAuth .deviceCodeExpired))) := by
  constructor
  · refine runFrom_postTicks_length_le _ _ _ _ 3 1 fuel ?_
    intro j hj
    simp only [deviceCodeExpirationTime]
    omega
  · intro hf
    obtain ⟨m, rfl⟩ : ∃ m, fuel = m + 4 := ⟨fuel - 4, by omega⟩
    have e1 : ¬ deviceCodeExpirationTime t0 16 < t0 + 5 * 1 := by
      simp only [deviceCodeExpirationTime]
      omega
    have e2 : ¬ deviceCodeExpirationTime t0 16 < t0 + 5 * 2 := by
      simp only [deviceCodeExpirationTime]
      omega
    have e3 : ¬ deviceCodeExpirationTime t0 16 < t0 + 5 * 3 := by
      simp only [deviceCodeExpirationTime]
      omega
    have e4 : deviceCodeExpirationTime t0 16 < t0 + 5 * 4 := by
      simp only [deviceCodeExpirationTime]
      omega
    unfold acquireTokenWithDeviceCode
    rw [show (m : Nat) + 4 = (m + 3) + 1 from rfl,
      @runFrom_pending (deviceCodeExpirationTime t0 16) 1 (m + 3) (fun _ => false)
        (fun j => t0 + 5 * j) (fun _ => .ok ⟨some pendingBody⟩) pendingBody rfl e1 rfl rfl,
      show (m : Nat) + 3 = (m + 2) + 1 from rfl,
      @runFrom_pending (deviceCodeExpirationTime t0 16) (1 + 1) (m + 2) (fun _ => false)
        (fun j => t0 + 5 * j) (fun _ => .ok ⟨some pendingBody⟩) pendingBody rfl e2 rfl rfl,
      show (m : Nat) + 2 = (m + 1) + 1 from rfl,
      @runFrom_pending (deviceCodeExpirationTime t0 16) (1 + 1 + 1) (m + 1) (fun _ => false)
        (fun j => t0 + 5 * j) (fun _ => .ok ⟨some pendingBody⟩) pendingBody rfl e3 rfl rfl,
      @runFrom_expired (deviceCodeExpirationTime t0 16) (1 + 1 + 1 + 1) m (fun _ => false)
        (fun j => t0 + 5 * j) (fun _ => .ok ⟨some pendingBody⟩) rfl e4]

/-- Witness for C6 at issuance time 0 and fuel 4. -/
theorem at_most_three_polls_C6_witness :
    (acquireTokenWithDeviceCode 0 16 (fun _ => false) (fun j => 0 + 5 * j)
        (fun _ => .ok ⟨some pendingBody⟩) 4).postTicks.length ≤ 3 ∧
    (acquireTokenWithDeviceCode 0 16 (fun _ => false) (fun j => 0 + 5 * j)
        (fun _ => .ok ⟨some pendingBody⟩) 4).outcome =
      some (.rejected (.clientAuth .deviceCodeExpired)) := by
  have h := at_most_three_polls_C6 0 4 (fun _ => false) (fun _ => .ok ⟨some pendingBody⟩)
  exact ⟨h.1, h.2 (by omega)⟩

/-- C7 counterexample: the claim says the first evaluation of the transition rule
occurs immediately after polling begins, but with the server interval 5 s the first
`setInterval` callback fires at elapsed 5000 ms, not at 0 ms. -/
theorem first_tick_not_immediate_C7_counterexample :
    setIntervalElapsedMilli (pollingIntervalMilli 5) 1 = 5000 ∧
    setIntervalElapsedMilli (pollingIntervalMilli 5) 1 ≠ 0 := by
  decide

/-- C7 amended: the transition rule is evaluated once per tick at the
server-specified interval (`interval` seconds times 1000 ms), with the first
evaluation occurring one full interval after polling begins and successive
evaluations spaced exactly one interval apart. -/
theorem tick_schedule_C7_amended (interval i : Nat) (_h : 1 ≤ i) :
    setIntervalElapsedMilli (pollingIntervalMilli interval) i = interval * 1000 * i ∧
    setIntervalElapsedMilli (pollingIntervalMilli interval) (i + 1) -
        setIntervalElapsedMilli (pollingIntervalMilli interval) i =
      pollingIntervalMilli interval ∧
    setIntervalElapsedMilli (pollingIntervalMilli interval) 1 =
      pollingIntervalMilli interval := by
  unfold setIntervalElapsedMilli pollingIntervalMilli
  refine ⟨rfl, ?_, by omega⟩
  rw [Nat.mul_succ]
  simp

/-- Witness for C7's amended claim at interval 5, tick 1. -/
theorem tick_schedule_C7_amended_witness :
    setIntervalElapsedMilli (pollingIntervalMilli 5) 1 = 5 * 1000 * 1 ∧
    setIntervalElapsedMilli (pollingIntervalMilli 5) 2 -
        setIntervalElapsedMilli (pollingIntervalMilli 5) 1 = pollingIntervalMilli 5 ∧
    setIntervalElapsedMilli (pollingIntervalMilli 5) 1 = pollingIntervalMilli 5 :=
  tick_schedule_C7_amended 5 1 (by decide)

/-- C8 counterexample: a device-code endpoint body missing the required `user_code`
field is not rejected with a `ServerError`; `getDeviceCode` returns a successfully
built `DeviceCodeResponse` whose `userCode` is simply absent. -/
theorem malformed_body_returned_C8_counterexample :
    getDeviceCode (.ok malformedDeviceCodeBody) =
      .ok ⟨none, some "opaque-device-code", some "https://contoso.test/devicelogin",
        some 900, some 5, some "enter the code at the verification page"⟩ :=
  rfl

/-- C8 amended: `getDeviceCode` propagates a transport failure unchanged (the
rejected GET is the flow's failure), and for every transport-successful response —
malformed or not — it returns a `DeviceCodeResponse` copying the six wire fields
verbatim, missing fields staying absent; no malformed-response validation exists at
this layer. -/
theorem getDeviceCode_copies_fields_C8_amended (e : String) (b : ServerDeviceCodeResponse) :
    getDeviceCode (.error e) = .error e ∧
    getDeviceCode (.ok b) =
      .ok ⟨b.user_code, b.device_code, b.verification_uri, b.expires_in, b.interval,
        b.message⟩ :=
  ⟨rfl, rfl⟩

/-- C9 (spec-modelled `ScopeSet` and `RequestParameterBuilder`): scope inputs that
are permutations of each other produce identical query strings, and the single
space-delimited scope parameter carries a duplicate-free scope set; determinism and
stable parameter order hold because the builder is a function with a fixed parameter
layout. -/
theorem createQueryString_perm_invariant_C9 (s1 s2 : List String) (clientId : String)
    (h : s1.Perm s2) :
    createQueryString s1 clientId = createQueryString s2 clientId ∧
    (scopeSetAsList s1 false).Nodup := by
  refine ⟨?_, scopeSetAsList_nodup s1 false⟩
  unfold createQueryString
  rw [scopeSetAsList_perm false h]

/-- Witness for C9 on the spec's example pair of scope sets. -/
theorem createQueryString_perm_invariant_C9_witness :
    createQueryString ["openid", "profile"] "client-id-123" =
      createQueryString ["profile", "openid"] "client-id-123" ∧
    (scopeSetAsList ["openid", "profile"] false).Nodup :=
  createQueryString_perm_invariant_C9 ["openid", "profile"] ["profile", "openid"]
    "client-id-123" (List.Perm.swap "profile" "openid" [])

/-- Environment of a flow whose single poll tick receives a falsy response body. -/
def envFalsyBody : AcquireEnv :=
  ⟨.ok sampleDeviceCodeBody, 1000, fun _ => false, fun j => 1000 + 5 * j,
    fun _ => .ok ⟨none⟩, 1⟩

/-- C10: a poll tick whose settled response has a falsy body neither keeps polling
nor rejects: it resolves the promise immediately with that absent body, and
`acquireToken` serializes it (`JSON.stringify(undefined)`, no string at all) and
returns it as a success. -/
theorem falsy_body_resolves_success_C10 (exp i fuel m : Nat) (cancelAt : Nat → Bool)
    (nowAt : Nat → Nat) (netAt : Nat → Except String NetworkResponse) (env : AcquireEnv)
    (sdc : ServerDeviceCodeResponse)
    (hc : cancelAt i = false) (hn : ¬ exp < nowAt i) (hnet : netAt i = .ok ⟨none⟩)
    (henv : env.deviceNet = .ok sdc) (hfuel : env.fuel = m + 1)
    (hc1 : env.cancelAt 1 = false)
    (hn1 : ¬ deviceCodeExpirationTime env.issuanceTime (sdc.expires_in.getD 0) < env.nowAt 1)
    (hnet1 : env.netAt 1 = .ok ⟨none⟩) :
    runFrom exp cancelAt nowAt netAt (fuel + 1) i = ⟨some (.resolved none), [i], []⟩ ∧
    (acquireToken env).1 = .resolvedJson none := by
  constructor
  · exact runFrom_resolve hc hn hnet rfl
  · have hrun := @runFrom_resolve
      (deviceCodeExpirationTime env.issuanceTime (sdc.expires_in.getD 0)) 1 m
      env.cancelAt env.nowAt env.netAt ⟨none⟩ hc1 hn1 hnet1 rfl
    simp [acquireToken, getDeviceCode, executeGetRequestToDeviceCodeEndpoint, henv,
      acquireTokenWithDeviceCode, hfuel, hrun, acquireResultOfRun, jsonStringifyBody]

/-- Witness for C10 on a concrete one-tick flow with a falsy poll body. -/
theorem falsy_body_resolves_success_C10_witness :
    runFrom 100 (fun _ => false) (fun _ => 50) (fun _ => .ok ⟨none⟩) 1 1 =
      ⟨some (.resolved none), [1], []⟩ ∧
    (acquireToken envFalsyBody).1 = .resolvedJson none :=
  falsy_body_resolves_success_C10 100 1 0 0 (fun _ => false) (fun _ => 50)
    (fun _ => .ok ⟨none⟩) envFalsyBody sampleDeviceCodeBody rfl (by decide)
    rfl rfl rfl rfl (by decide) rfl

end MsalDeviceCode
